import Mathlib

/-!
Verification of the historical-weather caching and resilience subsystem of the
Weather-Dashboard repository: a shallow embedding of the error taxonomy and
retry engine (historical-weather-errors), the two-tier cache manager
(historical-weather-cache), and the cached-fetch hook (useHistoricalWeatherCache),
together with theorems settling the specification claims.

Modelling conventions:
- JavaScript numbers used as coordinates are modelled as rationals (ℚ);
  timestamps (epoch milliseconds) as Int; binary floating-point representation
  artifacts are outside the model.
- Asynchronous methods are modelled as pure state-passing functions; the
  current time (a call to new Date()) is threaded as an explicit parameter.
- A rejected promise is an Except.error; Math.random() draws are threaded as an
  explicit stream of rationals in [0, 1).
- The IndexedDB historical store is an association list of entries plus a
  setError field modelling an environment in which every put request fails
  with that error (request.onerror firing with request.error).
-/

/-! ## JavaScript string and number helpers -/

/-- Model of JavaScript String.prototype.startsWith on character lists. -/
def charsStartWith : List Char → List Char → Bool
  | [], _ => true
  | _ :: _, [] => false
  | a :: as, b :: bs => a == b && charsStartWith as bs

/-- Model of substring containment: does the haystack contain the needle. -/
def charsContain (needle : List Char) : List Char → Bool
  | [] => charsStartWith needle []
  | c :: cs => charsStartWith needle (c :: cs) || charsContain needle cs

/-- Model of JavaScript String.prototype.includes. -/
def jsIncludes (hay needle : String) : Bool :=
  charsContain needle.toList hay.toList

/-- Left-pad a natural number below 100 to two digits, as in ISO date fields. -/
def pad2 (n : Nat) : String :=
  if n < 10 then "0" ++ toString n else toString n

/-- Left-pad a natural number below 10000 to four digits, as in an ISO year or
a four-digit decimal fraction. -/
def pad4 (n : Nat) : String :=
  if n < 10 then "000" ++ toString n
  else if n < 100 then "00" ++ toString n
  else if n < 1000 then "0" ++ toString n
  else toString n

/-- Model of JavaScript Number.prototype.toFixed(4) on an exact rational:
the sign is taken first, then the magnitude is rounded to the nearest multiple
of 1/10000 with ties rounded up, per the ECMA-262 Number.prototype.toFixed
algorithm (binary-double representation error is outside the model). -/
def toFixed4Str (x : ℚ) : String :=
  (if x < 0 then "-" else "") ++
    toString ((Int.floor ((if x < 0 then -x else x) * 10000 + 1/2)).toNat / 10000) ++ "." ++
    pad4 ((Int.floor ((if x < 0 then -x else x) * 10000 + 1/2)).toNat % 10000)

/-- Days-from-epoch to Gregorian civil date (year, month, day); the standard
civil-from-days calendar algorithm, matching what Date.prototype.toISOString
renders for the UTC day. -/
def civilFromDays (z0 : Int) : Int × Int × Int :=
  let z := z0 + 719468
  let era := Int.fdiv z 146097
  let doe := z - era * 146097
  let yoe := Int.fdiv (doe - Int.fdiv doe 1460 + Int.fdiv doe 36524 - Int.fdiv doe 146096) 365
  let y := yoe + era * 400
  let doy := doe - (365 * yoe + Int.fdiv yoe 4 - Int.fdiv yoe 100)
  let mp := Int.fdiv (5 * doy + 2) 153
  let d := doy - Int.fdiv (153 * mp + 2) 5 + 1
  let m := mp + (if mp < 10 then 3 else -9)
  (y + (if m ≤ 2 then 1 else 0), m, d)

/-- Model of the date part of Date.prototype.toISOString (the text before the T,
as selected by the split in the source): the YYYY-MM-DD rendering of the UTC
calendar day holding the given epoch-millisecond timestamp (years 0-9999). -/
def toISODateStr (ms : Int) : String :=
  let day := Int.fdiv ms 86400000
  let c := civilFromDays day
  pad4 c.1.toNat ++ "-" ++ pad2 c.2.1.toNat ++ "-" ++ pad2 c.2.2.toNat

/-! ## Error taxonomy (historical-weather-errors source file) -/

/-- Which class an error value was constructed with; stands in for the
JavaScript instanceof checks on the HistoricalWeatherError hierarchy. -/
inductive HWKind where
  | base
  | dateValidation
  | apiLimit
  | dataUnavailable
  | network
deriving DecidableEq

/-- The HistoricalWeatherError hierarchy flattened to one record: message, the
machine-readable code, the optional HTTP status code, and the APILimitError
retryAfter payload (none on every other class). The availableRange and
originalError payloads are carried by no logic in the subsystem and are
omitted. -/
structure HistoricalWeatherError where
  kind : HWKind
  message : String
  code : String
  statusCode : Option Int
  retryAfter : Option Int
deriving DecidableEq

/-- The base HistoricalWeatherError constructor new HistoricalWeatherError(message, code, statusCode?). -/
def mkHistoricalWeatherError (message code : String) (statusCode : Option Int) :
    HistoricalWeatherError :=
  ⟨HWKind.base, message, code, statusCode, none⟩

/-- The DateValidationError constructor: code DATE_VALIDATION_ERROR, no status. -/
def DateValidationError (message : String) : HistoricalWeatherError :=
  ⟨HWKind.dateValidation, message, "DATE_VALIDATION_ERROR", none, none⟩

/-- The APILimitError constructor: code API_LIMIT_ERROR, status 429, optional retryAfter. -/
def APILimitError (message : String) (retryAfter : Option Int) : HistoricalWeatherError :=
  ⟨HWKind.apiLimit, message, "API_LIMIT_ERROR", some 429, retryAfter⟩

/-- The DataUnavailableError constructor: code DATA_UNAVAILABLE_ERROR, status 404. -/
def DataUnavailableError (message : String) : HistoricalWeatherError :=
  ⟨HWKind.dataUnavailable, message, "DATA_UNAVAILABLE_ERROR", some 404, none⟩

/-- The NetworkError constructor: code NETWORK_ERROR, no status. -/
def NetworkError (message : String) : HistoricalWeatherError :=
  ⟨HWKind.network, message, "NETWORK_ERROR", none, none⟩

/-- A raw failure reaching handleAPIError before classification: an already
classified HistoricalWeatherError instance; a TypeError with its message; an
HTTP-like object carrying a status and/or statusCode property (either may be
present with an undefined value, modelled as none) and an optional parsed
retry-after header; or any other thrown value with an optional message. -/
inductive RawError where
  | hw (e : HistoricalWeatherError)
  | typeError (message : String)
  | httpError (status : Option Int) (statusCode : Option Int) (retryAfterHeader : Option Int)
  | generic (message : Option String)
deriving DecidableEq

/-- Model of the JavaScript expression error.status or-else error.statusCode:
a present nonzero status wins, a zero (falsy) or undefined status falls back to
statusCode as-is. -/
def pickStatus (status statusCode : Option Int) : Option Int :=
  match status with
  | some v => if v = 0 then statusCode else some v
  | none => statusCode

/-- Printing of a possibly-undefined status inside a template literal. -/
def statusToString (status : Option Int) : String :=
  match status with
  | some s => toString s
  | none => "undefined"

/-- The generic tail of handleAPIError: take the message property if present
and truthy, else a default, prepend the truthy context, and return an
UNKNOWN_ERROR-coded base error. -/
def handleGenericError (message : Option String) (context : Option String) :
    HistoricalWeatherError :=
  let msg :=
    match message with
    | some m => if m = "" then "An unexpected error occurred while fetching weather data." else m
    | none => "An unexpected error occurred while fetching weather data."
  let contextMessage :=
    match context with
    | some c => if c = "" then msg else c ++ ": " ++ msg
    | none => msg
  mkHistoricalWeatherError contextMessage "UNKNOWN_ERROR" none

/-- HistoricalWeatherErrorHandler.handleAPIError: classify a raw failure into a
HistoricalWeatherError, switching on the HTTP-like status when one is present. -/
def handleAPIError (error : RawError) (context : Option String) : HistoricalWeatherError :=
  match error with
  | RawError.hw e => e
  | RawError.typeError msg =>
    if jsIncludes msg "fetch" then
      NetworkError "Network connection failed. Please check your internet connection."
    else
      handleGenericError (some msg) context
  | RawError.httpError st stc ra =>
    match pickStatus st stc with
    | some 401 =>
      mkHistoricalWeatherError
        "Invalid API key. Please check your OpenWeatherMap API key configuration."
        "INVALID_API_KEY" (some 401)
    | some 403 =>
      mkHistoricalWeatherError
        "Access forbidden. Your API key may not have access to historical weather data."
        "ACCESS_FORBIDDEN" (some 403)
    | some 404 =>
      DataUnavailableError
        "Historical weather data is not available for the requested date and location."
    | some 429 =>
      APILimitError "API rate limit exceeded. Please try again later." ra
    | some 500 =>
      mkHistoricalWeatherError
        "Weather service is temporarily unavailable. Please try again later."
        "SERVICE_UNAVAILABLE" (some 500)
    | some 502 =>
      mkHistoricalWeatherError
        "Weather service is temporarily unavailable. Please try again later."
        "SERVICE_UNAVAILABLE" (some 502)
    | some 503 =>
      mkHistoricalWeatherError
        "Weather service is temporarily unavailable. Please try again later."
        "SERVICE_UNAVAILABLE" (some 503)
    | status =>
      mkHistoricalWeatherError
        ("Weather service error (" ++ statusToString status ++ "). Please try again.")
        "API_ERROR" status
  | RawError.generic msg => handleGenericError msg context

/-- The retryable code whitelist from HistoricalWeatherErrorHandler.isRetryable. -/
def retryableCodes : List String :=
  ["NETWORK_ERROR", "SERVICE_UNAVAILABLE", "API_LIMIT_ERROR"]

/-- The retryable status whitelist from HistoricalWeatherErrorHandler.isRetryable. -/
def retryableStatusCodes : List Int := [429, 500, 502, 503, 504]

/-- HistoricalWeatherErrorHandler.isRetryable: retry on a whitelisted code or a
whitelisted (defined) status code. -/
def isRetryable (error : HistoricalWeatherError) : Bool :=
  retryableCodes.contains error.code ||
    (match error.statusCode with
     | some s => retryableStatusCodes.contains s
     | none => false)

/-- The exponential-backoff branch of getRetryDelay: delay is
min(baseDelay * 2^(attempt-1), maxDelay) plus rand * 0.1 * delay of jitter,
where rand models the Math.random() draw. -/
def backoffDelay (attempt : Nat) (rand : ℚ) : ℚ :=
  let baseDelay : ℚ := 1000
  let maxDelay : ℚ := 30000
  let delay := min (baseDelay * 2 ^ (attempt - 1)) maxDelay
  let jitter := rand * (1/10) * delay
  delay + jitter

/-- HistoricalWeatherErrorHandler.getRetryDelay: an APILimitError carrying a
truthy retryAfter yields retryAfter seconds in milliseconds with no jitter;
everything else takes the jittered exponential backoff. -/
def getRetryDelay (error : HistoricalWeatherError) (attempt : Nat) (rand : ℚ) : ℚ :=
  match error.kind, error.retryAfter with
  | HWKind.apiLimit, some r => if r = 0 then backoffDelay attempt rand else (r : ℚ) * 1000
  | _, _ => backoffDelay attempt rand

/-- Observable outcome of a withRetry run: the settled result (error none marks
the unreachable final throw of an undefined lastError when maxAttempts < 1),
the number of times the operation was invoked, and the inter-attempt delays
actually awaited, in order. -/
structure RetryTrace (α : Type) where
  result : Except (Option HistoricalWeatherError) α
  calls : Nat
  delays : List ℚ

/-- The body of the withRetry attempt loop from the given 1-indexed attempt on,
with the remaining number of loop iterations as fuel. The operation is a stream
of per-invocation outcomes; rand is the stream of Math.random() draws. -/
def withRetryFrom {α : Type} (operation : Nat → Except RawError α) (rand : Nat → ℚ)
    (maxAttempts : Nat) (context : String) : Nat → Nat → RetryTrace α
  | _, 0 => ⟨Except.error none, 0, []⟩
  | attempt, fuel + 1 =>
    match operation (attempt - 1) with
    | Except.ok v => ⟨Except.ok v, 1, []⟩
    | Except.error raw =>
      let lastError := handleAPIError raw (some context)
      if ¬ isRetryable lastError then
        ⟨Except.error (some lastError), 1, []⟩
      else if attempt = maxAttempts then
        ⟨Except.error (some lastError), 1, []⟩
      else
        let delay := getRetryDelay lastError attempt (rand (attempt - 1))
        let rest := withRetryFrom operation rand maxAttempts context (attempt + 1) fuel
        ⟨rest.result, rest.calls + 1, delay :: rest.delays⟩

/-- withRetry(operation, maxAttempts, context): run the attempt loop from
attempt 1 with maxAttempts iterations of fuel. -/
def withRetry {α : Type} (operation : Nat → Except RawError α) (rand : Nat → ℚ)
    (maxAttempts : Nat) (context : String) : RetryTrace α :=
  withRetryFrom operation rand maxAttempts context 1 maxAttempts

/-! ## Two-tier historical weather cache (historical-weather-cache source file) -/

/-- Lookup in a JavaScript Map modelled as an association list with unique keys. -/
def mapGet {β : Type} (m : List (String × β)) (k : String) : Option β :=
  (m.find? (fun p => p.1 == k)).map (fun p => p.2)

/-- Map.prototype.set: bind the key to the value. A JavaScript Map keeps an
existing key at its original insertion position; re-inserting at the end is
observationally equal for get, delete and membership, which is all the
subsystem reads from the map. -/
def mapSet {β : Type} (m : List (String × β)) (k : String) (v : β) : List (String × β) :=
  m.filter (fun p => !(p.1 == k)) ++ [(k, v)]

/-- Map.prototype.delete: remove the binding of the key if any. -/
def mapDelete {β : Type} (m : List (String × β)) (k : String) : List (String × β) :=
  m.filter (fun p => !(p.1 == k))

/-- CACHE_EXPIRY_HOURS: historical data expires after 24 hours. -/
def CACHE_EXPIRY_HOURS : Int := 24

/-- A cached historical-weather entry (the HistoricalWeatherCache interface of
the types module), parametric in the payload type; the location object is
flattened into lat and lon fields, and Date-valued fields are epoch
milliseconds. -/
structure HistoricalWeatherCache (α : Type) where
  id : String
  lat : ℚ
  lon : ℚ
  date : String
  data : α
  cachedAt : Int
  expiresAt : Int

/-- The IndexedDB historical_weather object store: its live entries, plus the
behaviour of the backing storage on writes — setError is some e when the
environment fails every put request with error e (the forced-failure mode the
spec discusses), none when puts succeed. -/
structure IDBHistoricalStore (α : Type) where
  entries : List (String × HistoricalWeatherCache α)
  setError : Option String

/-- The mutable state of a HistoricalWeatherCacheManager instance: the
in-memory Map for historical entries and the optional IndexedDB handle (none
models the memory-only mode of server-side contexts, where initialization ended
before opening the database). The analytics tier duplicates the same logic on
a second pair of stores and is exercised by no claim, so it is not modelled. -/
structure HistoricalWeatherCacheManager (α : Type) where
  memoryCache : List (String × HistoricalWeatherCache α)
  db : Option (IDBHistoricalStore α)

/-- generateHistoricalKey: lat and lon fixed to 4 decimals and the UTC calendar
day, joined with underscores. -/
def generateHistoricalKey (lat lon : ℚ) (dateMs : Int) : String :=
  toFixed4Str lat ++ "_" ++ toFixed4Str lon ++ "_" ++ toISODateStr dateMs

/-- isExpired: cached data is expired when the current time is strictly after
expiresAt. -/
def isExpired (now expiresAt : Int) : Bool :=
  now > expiresAt

/-- removeHistoricalWeather: delete the entry for the key from the memory Map
and, when the database handle is present, from the IndexedDB store (a delete
request that errors still resolves, so removal never fails). -/
def removeHistoricalWeather {α : Type} (self : HistoricalWeatherCacheManager α)
    (lat lon : ℚ) (dateMs : Int) : HistoricalWeatherCacheManager α :=
  let key := generateHistoricalKey lat lon dateMs
  { memoryCache := mapDelete self.memoryCache key,
    db := self.db.map (fun db => { db with entries := mapDelete db.entries key }) }

/-- getHistoricalWeather: return the memory entry when present and unexpired;
otherwise consult IndexedDB when available — an unexpired hit repopulates the
memory Map, an expired hit is removed from both tiers via
removeHistoricalWeather, and a miss resolves null. Returns the resolved value
together with the state after the call. -/
def getHistoricalWeather {α : Type} (self : HistoricalWeatherCacheManager α) (now : Int)
    (lat lon : ℚ) (dateMs : Int) : Option α × HistoricalWeatherCacheManager α :=
  let key := generateHistoricalKey lat lon dateMs
  let memoryHit :=
    match mapGet self.memoryCache key with
    | some e => if isExpired now e.expiresAt then none else some e
    | none => none
  match memoryHit with
  | some e => (some e.data, self)
  | none =>
    match self.db with
    | none => (none, self)
    | some db =>
      match mapGet db.entries key with
      | some cached =>
        if isExpired now cached.expiresAt then
          (none, removeHistoricalWeather self lat lon dateMs)
        else
          (some cached.data, { self with memoryCache := mapSet self.memoryCache key cached })
      | none => (none, self)

/-- setHistoricalWeather: build the entry with expiresAt 24 hours from now
(setHours(getHours() + CACHE_EXPIRY_HOURS), i.e. now plus 24 hours of
milliseconds), write it to the memory Map unconditionally, then write through
to IndexedDB when available; a failing put rejects with the storage error
while the memory write stays in place and the store itself is unchanged. -/
def setHistoricalWeather {α : Type} (self : HistoricalWeatherCacheManager α) (now : Int)
    (lat lon : ℚ) (dateMs : Int) (data : α) :
    Except String Unit × HistoricalWeatherCacheManager α :=
  let key := generateHistoricalKey lat lon dateMs
  let expiresAt := now + CACHE_EXPIRY_HOURS * 3600000
  let cacheEntry : HistoricalWeatherCache α :=
    ⟨key, lat, lon, toISODateStr dateMs, data, now, expiresAt⟩
  let s1 : HistoricalWeatherCacheManager α :=
    { self with memoryCache := mapSet self.memoryCache key cacheEntry }
  match s1.db with
  | none => (Except.ok (), s1)
  | some db =>
    match db.setError with
    | some err => (Except.error err, s1)
    | none =>
      (Except.ok (), { s1 with db := some { db with entries := mapSet db.entries key cacheEntry } })

/-- clearExpiredCache: with no database handle the method returns at once
(the memory sweep below the IndexedDB section is never reached); with one, it
deletes the IndexedDB entries whose expiresAt is at most now (an inclusive
upper-bound cursor range) and the memory entries for which isExpired holds. -/
def clearExpiredCache {α : Type} (self : HistoricalWeatherCacheManager α) (now : Int) :
    HistoricalWeatherCacheManager α :=
  match self.db with
  | none => self
  | some db =>
    { memoryCache := self.memoryCache.filter (fun p => !(isExpired now p.2.expiresAt)),
      db := some { db with entries := db.entries.filter (fun p => !(p.2.expiresAt ≤ now)) } }

/-- clearAllCache: clear the memory Map and, when present, the IndexedDB store. -/
def clearAllCache {α : Type} (self : HistoricalWeatherCacheManager α) :
    HistoricalWeatherCacheManager α :=
  { memoryCache := [],
    db := self.db.map (fun db => { db with entries := [] }) }

/-! ## Cached-fetch hook (useHistoricalWeatherCache source file) -/

/-- Observable outcome of a fetchWithCache call: the settled result, the cache
state after the call, and how many times the supplied fetch function was
invoked. -/
structure FetchOutcome (α : Type) where
  result : Except String α
  state : HistoricalWeatherCacheManager α
  fetchCalls : Nat

/-- fetchWithCache of useCachedHistoricalWeather: before initialization, fetch
directly. Otherwise, inside the try block: consult the cache (the hook wrapper
around getHistoricalWeather catches lookup failures and presents them as a
miss, and the modelled lookup is total, so it is the manager lookup); on a hit
return it without fetching; on a miss invoke the fetch function and write the
result through setHistoricalWeather, whose rejection — rethrown by the hook
wrapper — lands in the catch block, which falls back to invoking the fetch
function a second time and returning that second result. A fetch failure
inside the try block lands in the same catch and also triggers the fallback
fetch. The fetch function is a stream of per-invocation outcomes. -/
def fetchWithCache {α : Type} (isInitialized : Bool)
    (self : HistoricalWeatherCacheManager α) (now : Int) (lat lon : ℚ) (dateMs : Int)
    (fetchFunction : Nat → Except String α) : FetchOutcome α :=
  if ¬ isInitialized then
    ⟨fetchFunction 0, self, 1⟩
  else
    match getHistoricalWeather self now lat lon dateMs with
    | (some cached, s1) => ⟨Except.ok cached, s1, 0⟩
    | (none, s1) =>
      match fetchFunction 0 with
      | Except.error _ => ⟨fetchFunction 1, s1, 2⟩
      | Except.ok data =>
        match setHistoricalWeather s1 now lat lon dateMs data with
        | (Except.ok _, s2) => ⟨Except.ok data, s2, 1⟩
        | (Except.error _, s2) => ⟨fetchFunction 1, s2, 2⟩

/-! ## Concrete fixtures used by counterexamples and witnesses -/

def expiredEntryA : HistoricalWeatherCache Nat :=
  ⟨generateHistoricalKey 1 2 0, 1, 2, toISODateStr 0, 7, 0, 10⟩

def memoryOnlyStateA : HistoricalWeatherCacheManager Nat :=
  ⟨[(generateHistoricalKey 1 2 0, expiredEntryA)], none⟩

def expiredEntryB : HistoricalWeatherCache Nat :=
  ⟨generateHistoricalKey 3 4 86400000, 3, 4, toISODateStr 86400000, 9, 0, 100⟩

def memoryOnlyStateB : HistoricalWeatherCacheManager Nat :=
  ⟨[(generateHistoricalKey 3 4 86400000, expiredEntryB)], none⟩

def twoTierStateC : HistoricalWeatherCacheManager Nat :=
  ⟨[(generateHistoricalKey 1 2 0, expiredEntryA)],
    some ⟨[(generateHistoricalKey 1 2 0, expiredEntryA)], none⟩⟩

/-! ## Helper lemmas -/

theorem mapGet_nil {β : Type} (k : String) : mapGet ([] : List (String × β)) k = none := rfl

theorem mapGet_mapSet_self {β : Type} (m : List (String × β)) (k : String) (v : β) :
    mapGet (mapSet m k v) k = some v := by
  induction m with
  | nil => simp [mapGet, mapSet, List.find?]
  | cons hd tl ih =>
    by_cases h : hd.1 = k
    · simp [mapGet, mapSet, List.filter_cons, h]
    · simp [mapGet, mapSet, List.filter_cons, h, List.find?]

theorem mapGet_singleton {β : Type} (k : String) (v : β) : mapGet [(k, v)] k = some v := by
  simpa [mapSet] using mapGet_mapSet_self ([] : List (String × β)) k v

theorem mapGet_filter {β : Type} (q : String × β → Bool) (m : List (String × β))
    (k : String) (v : β) (h : mapGet (m.filter q) k = some v) : q (k, v) = true := by
  unfold mapGet at h
  rcases Option.map_eq_some'.mp h with ⟨a, hfind, hv⟩
  have hp := List.find?_some hfind
  have hmem := List.mem_of_find?_eq_some hfind
  have hk : a.1 = k := by simpa using hp
  have hq : q a = true := (List.mem_filter.mp hmem).2
  cases a with
  | mk a1 a2 =>
    cases hk
    cases hv
    exact hq

theorem mapGet_filter_eq_none {β : Type} (q : String × β → Bool) (m : List (String × β))
    (k : String) (hall : ∀ v, (k, v) ∈ m → q (k, v) = false) :
    mapGet (m.filter q) k = none := by
  cases hf : mapGet (m.filter q) k with
  | none => rfl
  | some v =>
    have hq := mapGet_filter q m k v hf
    unfold mapGet at hf
    rcases Option.map_eq_some'.mp hf with ⟨a, hfind, hv⟩
    have hk : a.1 = k := by simpa using List.find?_some hfind
    have hmem : a ∈ m := (List.mem_filter.mp (List.mem_of_find?_eq_some hfind)).1
    cases a with
    | mk a1 a2 =>
      cases hk
      cases hv
      rw [hall a2 hmem] at hq
      cases hq

theorem isExpired_true_iff (now t : Int) : isExpired now t = true ↔ t < now := by
  simp [isExpired]

theorem isExpired_eq_false (now t : Int) (h : now ≤ t) : isExpired now t = false := by
  simp [isExpired]
  omega

theorem setHistoricalWeather_memoryCache {α : Type} (s : HistoricalWeatherCacheManager α)
    (now : Int) (lat lon : ℚ) (dateMs : Int) (data : α) :
    ((setHistoricalWeather s now lat lon dateMs data).2).memoryCache =
      mapSet s.memoryCache (generateHistoricalKey lat lon dateMs)
        ⟨generateHistoricalKey lat lon dateMs, lat, lon, toISODateStr dateMs, data, now,
          now + CACHE_EXPIRY_HOURS * 3600000⟩ := by
  rcases s with ⟨mem, db⟩
  cases db with
  | none => rfl
  | some db =>
    cases h : db.setError <;> simp [setHistoricalWeather, h]

theorem set_then_get {α : Type} (s : HistoricalWeatherCacheManager α)
    (now now' : Int) (lat lon : ℚ) (dateMs : Int) (data : α)
    (h : now' ≤ now + CACHE_EXPIRY_HOURS * 3600000) :
    (getHistoricalWeather (setHistoricalWeather s now lat lon dateMs data).2
        now' lat lon dateMs).1 = some data := by
  unfold getHistoricalWeather
  simp only [setHistoricalWeather_memoryCache, mapGet_mapSet_self,
    isExpired_eq_false _ _ h]
  simp

theorem get_expired_memoryOnly {α : Type} (s : HistoricalWeatherCacheManager α)
    (now : Int) (lat lon : ℚ) (dateMs : Int) (e : HistoricalWeatherCache α)
    (hdb : s.db = none)
    (hmem : mapGet s.memoryCache (generateHistoricalKey lat lon dateMs) = some e)
    (hexp : e.expiresAt < now) :
    getHistoricalWeather s now lat lon dateMs = (none, s) := by
  have hx : isExpired now e.expiresAt = true := (isExpired_true_iff _ _).mpr hexp
  unfold getHistoricalWeather
  simp only [hmem, hdb, hx]
  simp

theorem getHistoricalWeather_db_setError {α : Type} (s : HistoricalWeatherCacheManager α)
    (now : Int) (lat lon : ℚ) (dateMs : Int) :
    ((getHistoricalWeather s now lat lon dateMs).2).db.map IDBHistoricalStore.setError
      = s.db.map IDBHistoricalStore.setError := by
  unfold getHistoricalWeather removeHistoricalWeather
  rcases s with ⟨mem, db⟩
  cases hm : mapGet mem (generateHistoricalKey lat lon dateMs) with
  | none =>
    cases db with
    | none => simp [hm]
    | some db =>
      cases hd : mapGet db.entries (generateHistoricalKey lat lon dateMs) with
      | none => simp [hm, hd]
      | some cached => cases hx : isExpired now cached.expiresAt <;> simp [hm, hd, hx]
  | some e =>
    cases hx : isExpired now e.expiresAt with
    | false => simp [hm, hx]
    | true =>
      cases db with
      | none => simp [hm, hx]
      | some db =>
        cases hd : mapGet db.entries (generateHistoricalKey lat lon dateMs) with
        | none => simp [hm, hx, hd]
        | some cached => cases hy : isExpired now cached.expiresAt <;> simp [hm, hx, hd, hy]

theorem set_error_of_dbError {α : Type} (s : HistoricalWeatherCacheManager α)
    (db : IDBHistoricalStore α) (err : String) (now : Int) (lat lon : ℚ) (dateMs : Int)
    (data : α) (hdb : s.db = some db) (herr : db.setError = some err) :
    (setHistoricalWeather s now lat lon dateMs data).1 = Except.error err := by
  unfold setHistoricalWeather
  simp only [hdb, herr]

/-- Claim C7 (confirmed): for every prior cache state, coordinates, date and payload,
setHistoricalWeather followed immediately by getHistoricalWeather with the same
(lat, lon, date) returns the stored payload, provided the read happens no later
than 24 hours (the entry TTL) after the write time. -/
theorem c7_set_then_get_roundTrip {α : Type} (s : HistoricalWeatherCacheManager α)
    (now now' : Int) (lat lon : ℚ) (dateMs : Int) (data : α)
    (h : now' ≤ now + CACHE_EXPIRY_HOURS * 3600000) :
    (getHistoricalWeather (setHistoricalWeather s now lat lon dateMs data).2
        now' lat lon dateMs).1 = some data :=
  set_then_get s now now' lat lon dateMs data h

theorem c7_witness :
    ((100 : Int) ≤ 0 + CACHE_EXPIRY_HOURS * 3600000) ∧
    (getHistoricalWeather
        (setHistoricalWeather (⟨[], none⟩ : HistoricalWeatherCacheManager Nat) 0 1 2 0 42).2
        100 1 2 0).1 = some 42 :=
  ⟨by decide, c7_set_then_get_roundTrip (⟨[], none⟩ : HistoricalWeatherCacheManager Nat)
    0 100 1 2 0 42 (by decide)⟩

/-- Claim C2 (confirmed): when the durable tier is present and its writes fail,
setHistoricalWeather rejects with the persistent-tier error, yet the entry has
already been written to the in-memory tier, so a subsequent getHistoricalWeather
with the same key returns the payload until it expires. -/
theorem c2_set_fails_but_memory_serves {α : Type} (s : HistoricalWeatherCacheManager α)
    (db : IDBHistoricalStore α) (err : String) (now now' : Int) (lat lon : ℚ) (dateMs : Int)
    (data : α) (hdb : s.db = some db) (herr : db.setError = some err)
    (h : now' ≤ now + CACHE_EXPIRY_HOURS * 3600000) :
    (setHistoricalWeather s now lat lon dateMs data).1 = Except.error err ∧
    (getHistoricalWeather (setHistoricalWeather s now lat lon dateMs data).2
        now' lat lon dateMs).1 = some data :=
  ⟨set_error_of_dbError s db err now lat lon dateMs data hdb herr,
    set_then_get s now now' lat lon dateMs data h⟩

theorem c2_witness :
    (setHistoricalWeather
        (⟨[], some ⟨[], some "Storage failed"⟩⟩ : HistoricalWeatherCacheManager Nat)
        0 1 2 0 5).1 = Except.error "Storage failed" ∧
    (getHistoricalWeather
        (setHistoricalWeather
          (⟨[], some ⟨[], some "Storage failed"⟩⟩ : HistoricalWeatherCacheManager Nat)
          0 1 2 0 5).2 1 1 2 0).1 = some 5 :=
  c2_set_fails_but_memory_serves _ ⟨[], some "Storage failed"⟩ "Storage failed"
    0 1 1 2 0 5 rfl rfl (by decide)

/-- Claim C10 counterexample: in memory-only mode (no durable tier), with an
expired entry in the memory map, clearExpiredCache returns the state unchanged
and the expired entry is still retrievable from the map afterwards — so the
removal by a later clearExpiredCache promised by the claim does not happen. -/
theorem c10_counterexample :
    expiredEntryB.expiresAt < 200 ∧
    clearExpiredCache memoryOnlyStateB 200 = memoryOnlyStateB ∧
    mapGet (clearExpiredCache memoryOnlyStateB 200).memoryCache
      (generateHistoricalKey 3 4 86400000) = some expiredEntryB :=
  ⟨by decide, rfl, mapGet_singleton _ _⟩

/-- Claim C10 (corrected): when the durable tier is absent and the memory map
holds an expired entry for the requested key, getHistoricalWeather returns none
and leaves the state (hence the expired entry) unchanged; the entry is removed
by a later clearAllCache, but not by the get itself and not by clearExpiredCache,
which returns early without touching the memory map when the durable tier is
absent. -/
theorem c10_amended {α : Type} (s : HistoricalWeatherCacheManager α) (now : Int)
    (lat lon : ℚ) (dateMs : Int) (e : HistoricalWeatherCache α)
    (hdb : s.db = none)
    (hmem : mapGet s.memoryCache (generateHistoricalKey lat lon dateMs) = some e)
    (hexp : e.expiresAt < now) :
    getHistoricalWeather s now lat lon dateMs = (none, s) ∧
    clearExpiredCache s now = s ∧
    mapGet (clearAllCache s).memoryCache (generateHistoricalKey lat lon dateMs) = none := by
  refine ⟨get_expired_memoryOnly s now lat lon dateMs e hdb hmem hexp, ?_, ?_⟩
  · unfold clearExpiredCache
    rw [hdb]
  · exact mapGet_nil _

theorem c10_witness :
    getHistoricalWeather memoryOnlyStateB 200 3 4 86400000 = (none, memoryOnlyStateB) ∧
    clearExpiredCache memoryOnlyStateB 200 = memoryOnlyStateB ∧
    mapGet (clearAllCache memoryOnlyStateB).memoryCache
      (generateHistoricalKey 3 4 86400000) = none :=
  c10_amended memoryOnlyStateB 200 3 4 86400000 expiredEntryB rfl
    (mapGet_singleton _ _) (by decide)

/-- Claim C8 counterexample: an expired memory-tier entry in memory-only mode
survives both the next clearExpiredCache and the next getHistoricalWeather, so
the claimed removal from both tiers by the next sweep or lazily on the next get
fails in this mode. -/
theorem c8_counterexample :
    expiredEntryA.expiresAt < 20 ∧
    mapGet (clearExpiredCache memoryOnlyStateA 20).memoryCache
      (generateHistoricalKey 1 2 0) = some expiredEntryA ∧
    mapGet ((getHistoricalWeather memoryOnlyStateA 20 1 2 0).2).memoryCache
      (generateHistoricalKey 1 2 0) = some expiredEntryA := by
  refine ⟨by decide, mapGet_singleton _ _, ?_⟩
  rw [get_expired_memoryOnly memoryOnlyStateA 20 1 2 0 expiredEntryA rfl
    (mapGet_singleton _ _) (by decide)]
  exact mapGet_singleton _ _

/-- Claim C8 (corrected): once the current time is strictly after an entry
expiresAt, getHistoricalWeather returns none rather than the stale payload
(whichever tier holds the entry); and provided the durable tier is present, the
next clearExpiredCache removes every expired entry from both tiers. In
memory-only mode clearExpiredCache returns early and removes nothing (see the
counterexample). -/
theorem c8_amended {α : Type} (s : HistoricalWeatherCacheManager α) (now : Int)
    (lat lon : ℚ) (dateMs : Int) :
    ((∀ e, mapGet s.memoryCache (generateHistoricalKey lat lon dateMs) = some e →
        e.expiresAt < now) →
      (∀ db e, s.db = some db →
        mapGet db.entries (generateHistoricalKey lat lon dateMs) = some e →
        e.expiresAt < now) →
      (getHistoricalWeather s now lat lon dateMs).1 = none) ∧
    (∀ db, s.db = some db → ∀ k : String,
      ((∀ e, (k, e) ∈ s.memoryCache → e.expiresAt < now) →
        mapGet (clearExpiredCache s now).memoryCache k = none) ∧
      ((∀ e, (k, e) ∈ db.entries → e.expiresAt < now) →
        ∀ db', (clearExpiredCache s now).db = some db' → mapGet db'.entries k = none)) := by
  constructor
  · intro hmem hdbh
    unfold getHistoricalWeather
    cases hm : mapGet s.memoryCache (generateHistoricalKey lat lon dateMs) with
    | none =>
      cases hdbv : s.db with
      | none => simp [hm, hdbv]
      | some db =>
        cases hd : mapGet db.entries (generateHistoricalKey lat lon dateMs) with
        | none => simp [hm, hdbv, hd]
        | some c =>
          have hx : isExpired now c.expiresAt = true :=
            (isExpired_true_iff _ _).mpr (hdbh db c hdbv hd)
          simp [hm, hdbv, hd, hx]
    | some e =>
      have hx : isExpired now e.expiresAt = true :=
        (isExpired_true_iff _ _).mpr (hmem e hm)
      cases hdbv : s.db with
      | none => simp [hm, hdbv, hx]
      | some db =>
        cases hd : mapGet db.entries (generateHistoricalKey lat lon dateMs) with
        | none => simp [hm, hdbv, hd, hx]
        | some c =>
          have hy : isExpired now c.expiresAt = true :=
            (isExpired_true_iff _ _).mpr (hdbh db c hdbv hd)
          simp [hm, hdbv, hd, hx, hy]
  · intro db hdbv k
    have hsw : clearExpiredCache s now =
        ⟨s.memoryCache.filter (fun p => !(isExpired now p.2.expiresAt)),
          some ⟨db.entries.filter (fun p => !(p.2.expiresAt ≤ now)), db.setError⟩⟩ := by
      unfold clearExpiredCache
      rw [hdbv]
    constructor
    · intro hall
      rw [hsw]
      refine mapGet_filter_eq_none _ _ _ (fun v hv => ?_)
      have hlt := hall v hv
      simp [isExpired]
      omega
    · intro hall db' hdb'
      rw [hsw] at hdb'
      simp only [Option.some.injEq] at hdb'
      subst hdb'
      refine mapGet_filter_eq_none _ _ _ (fun v hv => ?_)
      have hlt := hall v hv
      simp
      omega

theorem c8_witness :
    (getHistoricalWeather twoTierStateC 20 1 2 0).1 = none ∧
    mapGet (clearExpiredCache twoTierStateC 20).memoryCache
      (generateHistoricalKey 1 2 0) = none ∧
    mapGet (⟨[], none⟩ : IDBHistoricalStore Nat).entries (generateHistoricalKey 1 2 0) = none := by
  have h := c8_amended twoTierStateC 20 1 2 0
  have hmm : twoTierStateC.memoryCache
      = [(generateHistoricalKey 1 2 0, expiredEntryA)] := rfl
  refine ⟨?_, ?_, ?_⟩
  · refine h.1 ?_ ?_
    · intro e he
      rw [hmm, mapGet_singleton] at he
      cases he
      decide
    · intro db e hdb he
      cases hdb
      rw [show (⟨[(generateHistoricalKey 1 2 0, expiredEntryA)], none⟩ :
        IDBHistoricalStore Nat).entries = [(generateHistoricalKey 1 2 0, expiredEntryA)]
        from rfl, mapGet_singleton] at he
      cases he
      decide
  · refine (h.2 ⟨[(generateHistoricalKey 1 2 0, expiredEntryA)], none⟩ rfl
      (generateHistoricalKey 1 2 0)).1 ?_
    intro e he
    rw [hmm] at he
    simp only [List.mem_singleton, Prod.mk.injEq, true_and] at he
    subst he
    decide
  · refine (h.2 ⟨[(generateHistoricalKey 1 2 0, expiredEntryA)], none⟩ rfl
      (generateHistoricalKey 1 2 0)).2 ?_ ⟨[], none⟩ rfl
    intro e he
    simp only [List.mem_singleton, Prod.mk.injEq, true_and] at he
    subst he
    decide

/-- Claim C1 counterexample: with an empty cache, a durable tier that fails
every write, and a fetch function succeeding on every invocation, fetchWithCache
invokes the fetch function twice — not once as the claim states — and returns
the second invocation result (100 + 1 = 101, not the first result 100). -/
theorem c1_counterexample :
    (fetchWithCache true (⟨[], some ⟨[], some "Storage failed"⟩⟩ :
        HistoricalWeatherCacheManager Nat) 0 1 2 0
      (fun k => Except.ok (100 + k))).fetchCalls = 2 ∧
    (fetchWithCache true (⟨[], some ⟨[], some "Storage failed"⟩⟩ :
        HistoricalWeatherCacheManager Nat) 0 1 2 0
      (fun k => Except.ok (100 + k))).result = Except.ok 101 :=
  ⟨rfl, rfl⟩

/-- Claim C1 (corrected): when the lookup misses and the cache write fails,
fetchWithCache still resolves with a fetched value and does not propagate the
cache-write failure, but it does so by catching the rethrown write error and
invoking the fetch function a second time: the fetch function is invoked twice,
the second result is returned, and the first fetched value sits in the memory
tier where an immediately following getHistoricalWeather finds it. -/
theorem c1_amended {α : Type} (s : HistoricalWeatherCacheManager α)
    (db : IDBHistoricalStore α) (err : String) (now : Int) (lat lon : ℚ) (dateMs : Int)
    (fetchFn : Nat → Except String α) (a0 a1 : α)
    (hmiss : (getHistoricalWeather s now lat lon dateMs).1 = none)
    (hdb : s.db = some db) (herr : db.setError = some err)
    (hf0 : fetchFn 0 = Except.ok a0) (hf1 : fetchFn 1 = Except.ok a1) :
    (fetchWithCache true s now lat lon dateMs fetchFn).fetchCalls = 2 ∧
    (fetchWithCache true s now lat lon dateMs fetchFn).result = Except.ok a1 ∧
    (getHistoricalWeather (fetchWithCache true s now lat lon dateMs fetchFn).state
        now lat lon dateMs).1 = some a0 := by
  rcases hg : getHistoricalWeather s now lat lon dateMs with ⟨r, s1⟩
  have hr : r = none := by rw [hg] at hmiss; exact hmiss
  subst hr
  have hmap := getHistoricalWeather_db_setError s now lat lon dateMs
  rw [hg, hdb] at hmap
  cases hs1 : s1.db with
  | none => rw [hs1] at hmap; simp at hmap
  | some db1 =>
    have herr1 : db1.setError = some err := by
      rw [hs1] at hmap
      simpa [herr] using hmap
    have hset1 : (setHistoricalWeather s1 now lat lon dateMs a0).1 = Except.error err :=
      set_error_of_dbError s1 db1 err now lat lon dateMs a0 hs1 herr1
    rcases hset : setHistoricalWeather s1 now lat lon dateMs a0 with ⟨r2, s2⟩
    have hr2 : r2 = Except.error err := by rw [hset] at hset1; exact hset1
    subst hr2
    have hout : fetchWithCache true s now lat lon dateMs fetchFn
        = ⟨fetchFn 1, s2, 2⟩ := by
      unfold fetchWithCache
      rw [if_neg (by simp)]
      rw [hg]
      simp only [hf0, hset]
    refine ⟨?_, ?_, ?_⟩
    · rw [hout]
    · rw [hout]
      exact hf1
    · rw [hout]
      have hle : now ≤ now + CACHE_EXPIRY_HOURS * 3600000 := by
        unfold CACHE_EXPIRY_HOURS
        omega
      have hrt := set_then_get s1 now now lat lon dateMs a0 hle
      rw [hset] at hrt
      exact hrt

theorem c1_amended_witness :
    (fetchWithCache true (⟨[], some ⟨[], some "Storage failed"⟩⟩ :
        HistoricalWeatherCacheManager Nat) 0 1 2 0
      (fun k => Except.ok (100 + k))).fetchCalls = 2 ∧
    (fetchWithCache true (⟨[], some ⟨[], some "Storage failed"⟩⟩ :
        HistoricalWeatherCacheManager Nat) 0 1 2 0
      (fun k => Except.ok (100 + k))).result = Except.ok 101 ∧
    (getHistoricalWeather
        (fetchWithCache true (⟨[], some ⟨[], some "Storage failed"⟩⟩ :
          HistoricalWeatherCacheManager Nat) 0 1 2 0
          (fun k => Except.ok (100 + k))).state 0 1 2 0).1 = some 100 :=
  c1_amended (⟨[], some ⟨[], some "Storage failed"⟩⟩ : HistoricalWeatherCacheManager Nat)
    ⟨[], some "Storage failed"⟩ "Storage failed" 0 1 2 0
    (fun k => Except.ok (100 + k)) 100 101 rfl rfl rfl rfl rfl

theorem handleAPIError_hw (e : HistoricalWeatherError) (ctx : Option String) :
    handleAPIError (RawError.hw e) ctx = e := rfl

theorem isRetryable_NetworkError (msg : String) : isRetryable (NetworkError msg) = true := rfl

theorem getRetryDelay_NetworkError (msg : String) (attempt : Nat) (r : ℚ) :
    getRetryDelay (NetworkError msg) attempt r = backoffDelay attempt r := rfl

theorem backoffDelay_bounds (attempt : Nat) (r : ℚ) (h0 : 0 ≤ r) (h1 : r < 1)
    (hsmall : (1000 : ℚ) * 2 ^ (attempt - 1) ≤ 30000) :
    1000 * 2 ^ (attempt - 1) ≤ backoffDelay attempt r ∧
      backoffDelay attempt r ≤ 30000 * (11/10) := by
  have hD : (0 : ℚ) < 1000 * 2 ^ (attempt - 1) := by positivity
  unfold backoffDelay
  dsimp only
  rw [min_eq_left hsmall]
  constructor <;> nlinarith [hD, h0, h1, hsmall]

/-- Claim C5 (confirmed): isRetryable returns true exactly when the error code
is one of NETWORK_ERROR, SERVICE_UNAVAILABLE, API_LIMIT_ERROR, or the status
code is defined and one of 429, 500, 502, 503, 504. -/
theorem c5_isRetryable_characterization (e : HistoricalWeatherError) :
    isRetryable e = true ↔
      (e.code ∈ ["NETWORK_ERROR", "SERVICE_UNAVAILABLE", "API_LIMIT_ERROR"] ∨
        ∃ s, e.statusCode = some s ∧ s ∈ ([429, 500, 502, 503, 504] : List Int)) := by
  unfold isRetryable retryableCodes retryableStatusCodes
  cases h : e.statusCode with
  | none => simp [h, List.elem_iff]
  | some s => simp [h, List.elem_iff]

/-- Claim C4 (confirmed): for an operation whose failure classifies as
non-retryable, withRetry invokes the operation exactly once, awaits no delay,
and fails immediately with the classified error, for every allowed number of
remaining attempts. -/
theorem c4_nonretryable_fails_immediately {α : Type} (op : Nat → Except RawError α)
    (rand : Nat → ℚ) (maxAttempts : Nat) (ctx : String) (raw : RawError)
    (hmax : 1 ≤ maxAttempts)
    (hop : op 0 = Except.error raw)
    (hnr : isRetryable (handleAPIError raw (some ctx)) = false) :
    withRetry op rand maxAttempts ctx
      = ⟨Except.error (some (handleAPIError raw (some ctx))), 1, []⟩ := by
  obtain ⟨f, rfl⟩ : ∃ f, maxAttempts = f + 1 := ⟨maxAttempts - 1, by omega⟩
  unfold withRetry withRetryFrom
  simp [hop, hnr]

theorem c4_witness :
    withRetry ((fun _ => Except.error (RawError.httpError (some 401) none none)) :
          Nat → Except RawError Nat)
        (fun _ => (0 : ℚ)) 3 "operation"
      = ⟨Except.error (some (handleAPIError (RawError.httpError (some 401) none none)
          (some "operation"))), 1, []⟩ :=
  c4_nonretryable_fails_immediately
    ((fun _ => Except.error (RawError.httpError (some 401) none none)) :
      Nat → Except RawError Nat)
    (fun _ => (0 : ℚ)) 3 "operation" (RawError.httpError (some 401) none none)
    (by omega) rfl (by decide)

/-- Claim C3 (confirmed): for an operation that raises a NetworkError-classified
failure on every invocation and maxAttempts = 3, withRetry invokes the operation
exactly 3 times and fails with the final classified error, after exactly 2
inter-attempt delays; the delay after attempt n is at least
baseDelay * 2 ^ (n - 1) with baseDelay = 1000 ms and at most
maxDelay * 1.1 = 30000 * (11/10) ms, the jitter being added, never subtracted. -/
theorem c3_network_error_three_attempts {α : Type} (op : Nat → Except RawError α)
    (rand : Nat → ℚ) (ctx : String) (m : Nat → String)
    (hop : ∀ k, k < 3 → op k = Except.error (RawError.hw (NetworkError (m k))))
    (hrand : ∀ k, 0 ≤ rand k ∧ rand k < 1) :
    withRetry op rand 3 ctx
        = ⟨Except.error (some (NetworkError (m 2))), 3,
            [backoffDelay 1 (rand 0), backoffDelay 2 (rand 1)]⟩ ∧
    1000 * 2 ^ 0 ≤ backoffDelay 1 (rand 0) ∧
    backoffDelay 1 (rand 0) ≤ 30000 * (11/10) ∧
    1000 * 2 ^ 1 ≤ backoffDelay 2 (rand 1) ∧
    backoffDelay 2 (rand 1) ≤ 30000 * (11/10) := by
  have hop0 := hop 0 (by omega)
  have hop1 := hop 1 (by omega)
  have hop2 := hop 2 (by omega)
  have hb1 := backoffDelay_bounds 1 (rand 0) (hrand 0).1 (hrand 0).2 (by norm_num)
  have hb2 := backoffDelay_bounds 2 (rand 1) (hrand 1).1 (hrand 1).2 (by norm_num)
  refine ⟨?_, ?_, ?_, ?_, ?_⟩
  · unfold withRetry withRetryFrom
    simp [hop0, hop1, hop2, handleAPIError_hw, isRetryable_NetworkError,
      getRetryDelay_NetworkError]
    unfold withRetryFrom
    simp [hop1, hop2, handleAPIError_hw, isRetryable_NetworkError,
      getRetryDelay_NetworkError]
    unfold withRetryFrom
    simp [hop2, handleAPIError_hw, isRetryable_NetworkError]
  · simpa using hb1.1
  · exact hb1.2
  · simpa using hb2.1
  · exact hb2.2

theorem c3_witness :
    withRetry ((fun _ => Except.error (RawError.hw (NetworkError "offline"))) :
          Nat → Except RawError Nat)
        (fun _ => (0 : ℚ)) 3 "operation"
        = ⟨Except.error (some (NetworkError "offline")), 3,
            [backoffDelay 1 0, backoffDelay 2 0]⟩ ∧
    1000 * 2 ^ 0 ≤ backoffDelay 1 (0 : ℚ) ∧
    backoffDelay 1 (0 : ℚ) ≤ 30000 * (11/10) ∧
    1000 * 2 ^ 1 ≤ backoffDelay 2 (0 : ℚ) ∧
    backoffDelay 2 (0 : ℚ) ≤ 30000 * (11/10) :=
  c3_network_error_three_attempts
    ((fun _ => Except.error (RawError.hw (NetworkError "offline"))) :
      Nat → Except RawError Nat)
    (fun _ => (0 : ℚ)) "operation" (fun _ => "offline")
    (fun _ _ => rfl) (fun _ => ⟨le_refl 0, by norm_num⟩)

/-- Claim C6 (confirmed): handleAPIError maps status 401 to INVALID_API_KEY,
403 to ACCESS_FORBIDDEN, 404 to a DataUnavailableError, 429 to an APILimitError
carrying the upstream retry-after value when supplied, 500/502/503 to
SERVICE_UNAVAILABLE, any other status to API_ERROR, and a raw transport failure
(a TypeError mentioning fetch, with no status) to a NetworkError, which is
retryable. -/
theorem c6_handleAPIError_classification (ctx : Option String) (ra : Option Int)
    (s : Int) (msg : String)
    (hs : s ∉ ([401, 403, 404, 429, 500, 502, 503] : List Int))
    (hmsg : jsIncludes msg "fetch" = true) :
    (handleAPIError (RawError.httpError (some 401) none none) ctx).code = "INVALID_API_KEY" ∧
    (handleAPIError (RawError.httpError (some 403) none none) ctx).code = "ACCESS_FORBIDDEN" ∧
    ((handleAPIError (RawError.httpError (some 404) none none) ctx).kind
        = HWKind.dataUnavailable ∧
      (handleAPIError (RawError.httpError (some 404) none none) ctx).code
        = "DATA_UNAVAILABLE_ERROR") ∧
    ((handleAPIError (RawError.httpError (some 429) none ra) ctx).kind = HWKind.apiLimit ∧
      (handleAPIError (RawError.httpError (some 429) none ra) ctx).code = "API_LIMIT_ERROR" ∧
      (handleAPIError (RawError.httpError (some 429) none ra) ctx).retryAfter = ra) ∧
    (handleAPIError (RawError.httpError (some 500) none none) ctx).code
      = "SERVICE_UNAVAILABLE" ∧
    (handleAPIError (RawError.httpError (some 502) none none) ctx).code
      = "SERVICE_UNAVAILABLE" ∧
    (handleAPIError (RawError.httpError (some 503) none none) ctx).code
      = "SERVICE_UNAVAILABLE" ∧
    (handleAPIError (RawError.httpError (some s) none none) ctx).code = "API_ERROR" ∧
    ((handleAPIError (RawError.typeError msg) ctx).kind = HWKind.network ∧
      (handleAPIError (RawError.typeError msg) ctx).code = "NETWORK_ERROR" ∧
      isRetryable (handleAPIError (RawError.typeError msg) ctx) = true) := by
  have ht : handleAPIError (RawError.typeError msg) ctx =
      NetworkError "Network connection failed. Please check your internet connection." := by
    unfold handleAPIError
    dsimp only
    rw [if_pos hmsg]
  refine ⟨rfl, rfl, ⟨rfl, rfl⟩, ⟨rfl, rfl, rfl⟩, rfl, rfl, rfl, ?_,
    by rw [ht]; exact rfl, by rw [ht]; exact rfl, by rw [ht]; exact rfl⟩
  simp only [List.mem_cons, List.not_mem_nil, or_false, not_or] at hs
  unfold handleAPIError
  by_cases h0 : s = 0
  · subst h0
    rfl
  · dsimp only
    simp only [pickStatus, if_neg h0]
    split <;> first | rfl | simp_all

theorem c6_witness :
    (handleAPIError (RawError.httpError (some 401) none none) none).code = "INVALID_API_KEY" ∧
    (handleAPIError (RawError.httpError (some 403) none none) none).code = "ACCESS_FORBIDDEN" ∧
    ((handleAPIError (RawError.httpError (some 404) none none) none).kind
        = HWKind.dataUnavailable ∧
      (handleAPIError (RawError.httpError (some 404) none none) none).code
        = "DATA_UNAVAILABLE_ERROR") ∧
    ((handleAPIError (RawError.httpError (some 429) none (some 7)) none).kind
        = HWKind.apiLimit ∧
      (handleAPIError (RawError.httpError (some 429) none (some 7)) none).code
        = "API_LIMIT_ERROR" ∧
      (handleAPIError (RawError.httpError (some 429) none (some 7)) none).retryAfter
        = some 7) ∧
    (handleAPIError (RawError.httpError (some 500) none none) none).code
      = "SERVICE_UNAVAILABLE" ∧
    (handleAPIError (RawError.httpError (some 502) none none) none).code
      = "SERVICE_UNAVAILABLE" ∧
    (handleAPIError (RawError.httpError (some 503) none none) none).code
      = "SERVICE_UNAVAILABLE" ∧
    (handleAPIError (RawError.httpError (some 418) none none) none).code = "API_ERROR" ∧
    ((handleAPIError (RawError.typeError "Failed to fetch") none).kind = HWKind.network ∧
      (handleAPIError (RawError.typeError "Failed to fetch") none).code = "NETWORK_ERROR" ∧
      isRetryable (handleAPIError (RawError.typeError "Failed to fetch") none) = true) :=
  c6_handleAPIError_classification none (some 7) 418 "Failed to fetch"
    (by decide) (by decide)

theorem toFixed4Str_nonneg_eq (x : ℚ) (n : Nat) (hx : ¬ x < 0)
    (hf : Int.floor (x * 10000 + 1/2) = (n : Int)) :
    toFixed4Str x = toString (n / 10000) ++ "." ++ pad4 (n % 10000) := by
  unfold toFixed4Str
  rw [if_neg hx, if_neg hx, hf]
  simp

theorem toFixed4Str_neg_eq (x : ℚ) (n : Nat) (hx : x < 0)
    (hf : Int.floor (-x * 10000 + 1/2) = (n : Int)) :
    toFixed4Str x = "-" ++ toString (n / 10000) ++ "." ++ pad4 (n % 10000) := by
  unfold toFixed4Str
  rw [if_pos hx, if_pos hx, hf]
  simp

/-- Claim C9 counterexample: 1.00004 and 1.00006 differ only beyond the 4th
decimal place (both truncate to 1.0000, as the equal floors witness), yet
toFixed(4) rounds them to 1.0000 and 1.0001 respectively, so the generated
cache keys differ and the claimed collision fails. -/
theorem c9_counterexample :
    ⌊(1.00004 : ℚ) * 10000⌋ = 10000 ∧ ⌊(1.00006 : ℚ) * 10000⌋ = 10000 ∧
    generateHistoricalKey (1.00004 : ℚ) 2 0 ≠ generateHistoricalKey (1.00006 : ℚ) 2 0 := by
  refine ⟨by norm_num [Int.floor_eq_iff], by norm_num [Int.floor_eq_iff], ?_⟩
  have h4 : toFixed4Str (1.00004 : ℚ)
      = toString (10000 / 10000) ++ "." ++ pad4 (10000 % 10000) :=
    toFixed4Str_nonneg_eq _ 10000 (by norm_num) (by norm_num [Int.floor_eq_iff])
  have h6 : toFixed4Str (1.00006 : ℚ)
      = toString (10001 / 10000) ++ "." ++ pad4 (10001 % 10000) :=
    toFixed4Str_nonneg_eq _ 10001 (by norm_num) (by norm_num [Int.floor_eq_iff])
  have h2 : toFixed4Str (2 : ℚ)
      = toString (20000 / 10000) ++ "." ++ pad4 (20000 % 10000) :=
    toFixed4Str_nonneg_eq _ 20000 (by norm_num) (by norm_num [Int.floor_eq_iff])
  unfold generateHistoricalKey
  rw [h4, h6, h2]
  decide

/-- Claim C9 (corrected): two coordinate pairs whose components round to the
same 4-decimal rendering under toFixed(4) — rather than merely differing only
beyond the 4th decimal place, since toFixed rounds at the 5th decimal instead of
truncating — and any two Date values falling on the same UTC calendar day
produce the same historical cache key, so the lookups collide on one entry. -/
theorem c9_key_collision_amended (lat1 lon1 lat2 lon2 : ℚ) (d1 d2 : Int)
    (hlat : toFixed4Str lat1 = toFixed4Str lat2)
    (hlon : toFixed4Str lon1 = toFixed4Str lon2)
    (hday : Int.fdiv d1 86400000 = Int.fdiv d2 86400000) :
    generateHistoricalKey lat1 lon1 d1 = generateHistoricalKey lat2 lon2 d2 := by
  unfold generateHistoricalKey toISODateStr
  rw [hlat, hlon, hday]

theorem c9_witness :
    generateHistoricalKey (40.71280001 : ℚ) (-74.00600002 : ℚ) 0
      = generateHistoricalKey (40.7128 : ℚ) (-74.0060 : ℚ) 43200000 :=
  c9_key_collision_amended (40.71280001 : ℚ) (-74.00600002 : ℚ)
    (40.7128 : ℚ) (-74.0060 : ℚ) 0 43200000
    (by
      rw [toFixed4Str_nonneg_eq _ 407128 (by norm_num) (by norm_num [Int.floor_eq_iff]),
        toFixed4Str_nonneg_eq _ 407128 (by norm_num) (by norm_num [Int.floor_eq_iff])])
    (by
      rw [toFixed4Str_neg_eq _ 740060 (by norm_num) (by norm_num [Int.floor_eq_iff]),
        toFixed4Str_neg_eq _ 740060 (by norm_num) (by norm_num [Int.floor_eq_iff])])
    (by decide)
